import Mathlib

/-!
Shallow embedding of the session registry and command-execution lifecycle of
`tty_mcp_server.py` (class `TTYManager` and dataclasses `SessionStats`,
`TTYSession`).

Modelling conventions:
* The Python `Dict[str, TTYSession]` store is an insertion-ordered association
  list with the usual dict semantics (assignment to an existing key replaces
  the value in place, assignment to a new key appends, `del` removes).
* `time.time()` values are passed in explicitly as `Int` parameters (the code
  only ever subtracts them); `time.ctime()` is passed as an opaque string.
* The external `subprocess.run` collaborator is modelled by a `RunResult`
  value handed to `execute_command`: either a completed process (return code,
  captured stdout, captured stderr), a `subprocess.TimeoutExpired`, or any
  other exception with its message.
* Each operation's Python result dict is modelled by a structure whose
  `Option` fields mirror keys that the code only sometimes includes; a field
  equal to `none` means the key is absent from the dict.
* Python `len` on a `str` counts code points, modelled by `String.length`;
  `str.count` of a newline is modelled by counting `Char` occurrences.
-/

/-- `class SessionStatus(Enum)` with members `ACTIVE = "active"` and
`TERMINATED = "terminated"`. -/
inductive SessionStatus where
  | active
  | terminated
deriving DecidableEq

/-- `SessionStatus.value`, the string payload of the enum member. -/
def SessionStatus.value : SessionStatus → String
  | SessionStatus.active => "active"
  | SessionStatus.terminated => "terminated"

/-- `@dataclass class SessionStats`: per-session counters. -/
structure SessionStats where
  lines_written : Nat := 0
  bytes_written : Nat := 0
  commands_executed : Nat := 0
  last_activity : Int := 0
  created_at : Int := 0
deriving DecidableEq

/-- `@dataclass class TTYSession`: one session record. -/
structure TTYSession where
  session_id : String
  status : SessionStatus := SessionStatus.active
  stats : SessionStats
  buffer : String := ""
  description : String := ""
deriving DecidableEq

/-- `TTYManager.sessions : Dict[str, TTYSession]`, as an insertion-ordered
association list. -/
abbrev Store := List (String × TTYSession)

/-- Dict lookup: `self.sessions[sid]` guarded by `sid in self.sessions`. -/
def lookupStore : Store → String → Option TTYSession
  | [], _ => none
  | p :: rest, sid => if p.1 = sid then some p.2 else lookupStore rest sid

/-- Dict assignment to a key already present: replaces the value, keeps the
entry's position. -/
def updateStore (m : Store) (sid : String) (s : TTYSession) : Store :=
  m.map (fun p => if p.1 = sid then (sid, s) else p)

/-- Dict assignment `self.sessions[sid] = session`: replaces in place when the
key exists, appends otherwise. -/
def insertStore (m : Store) (sid : String) (s : TTYSession) : Store :=
  if lookupStore m sid = none then m ++ [(sid, s)] else updateStore m sid s

/-- `del self.sessions[sid]`: removes the entry with key `sid`. -/
def removeStore : Store → String → Store
  | [], _ => []
  | p :: rest, sid => if p.1 = sid then removeStore rest sid else p :: removeStore rest sid

/-- Python `len` on the decoded output text (counts code points). -/
def py_len (s : String) : Nat := s.length

/-- Python `output.count('\n')`. -/
def count_newlines (s : String) : Nat := s.data.count '\n'

/-- Line count of a buffer as the source computes it: `output.count('\n') + 1`. -/
def line_count (s : String) : Nat := count_newlines s + 1

/-- Outcome of the `subprocess.run(command, shell=True, capture_output=True,
text=True, timeout=30)` collaborator: a completed process, a
`subprocess.TimeoutExpired`, or any other exception with its message. -/
inductive RunResult where
  | completed (returncode : Int) (stdout : String) (stderr : String)
  | timedOut
  | execError (msg : String)
deriving DecidableEq

/-- Result dict of `TTYManager.create_session`. -/
structure CreateResult where
  success : Bool
  session_id : Option String := none
  description : Option String := none
  message : Option String := none
  error : Option String := none
deriving DecidableEq

/-- Result dict of `TTYManager.execute_command`. -/
structure ExecResult where
  success : Bool
  session_id : Option String := none
  command : Option String := none
  output : Option String := none
  return_code : Option Int := none
  error : Option String := none
deriving DecidableEq

/-- The nested `"stats"` dict built by `TTYManager.get_session_stats`. -/
structure StatsSnapshot where
  lines_written : Nat
  bytes_written : Nat
  commands_executed : Nat
  uptime_seconds : Int
  last_activity_seconds : Int
deriving DecidableEq

/-- Result dict of `TTYManager.get_session_stats`. The code never writes a
`"success"` key into this dict (its not-found branch returns only
`{"error": ...}`), so `success = none` in both branches. -/
structure StatsResult where
  success : Option Bool := none
  error : Option String := none
  session_id : Option String := none
  description : Option String := none
  status : Option String := none
  stats : Option StatsSnapshot := none
deriving DecidableEq

/-- Result dict of `TTYManager.terminate_session`. -/
structure TerminateResult where
  success : Bool
  session_id : Option String := none
  error : Option String := none
deriving DecidableEq

/-- Result dict of `TTYManager.batch_terminate`. -/
structure BatchResult where
  success : Bool
  terminated_count : Nat
  details : List (String × TerminateResult)
deriving DecidableEq

/-- Result dict of `TTYManager.create_browser_session`. -/
structure BrowserResult where
  success : Bool
  session_id : Option String := none
  type : Option String := none
  url : Option String := none
  message : Option String := none
  error : Option String := none
deriving DecidableEq

/-- `TTYManager.create_session(description)`. Generates a record whose
description defaults to `"Session-" + id` when the argument is falsy
(`description or f"Session-{session_id}"`); the returned dict echoes the
*original* `description` argument (source line 59). The fresh id
`str(uuid.uuid4())[:8]` is passed in as `fresh_id`; `time.time()` as `now`. -/
def create_session (m : Store) (fresh_id : String) (description : String) (now : Int) :
    CreateResult × Store :=
  let session : TTYSession :=
    { session_id := fresh_id,
      status := SessionStatus.active,
      stats := { lines_written := 0, bytes_written := 0, commands_executed := 0,
                 last_activity := 0, created_at := now },
      buffer := "",
      description := if description = "" then "Session-" ++ fresh_id else description }
  ({ success := true, session_id := some fresh_id, description := some description,
     message := some "TTY session created successfully" },
   insertStore m fresh_id session)

/-- The multi-block text `execute_command` assembles from the completed
process: command line, return code, timestamp, then a `STDOUT` block only if
stdout is non-empty and a `STDERR` block only if stderr is non-empty, joined
by newlines. -/
def format_output (command : String) (returncode : Int) (ctimeStr stdout stderr : String) :
    String :=
  let base := ["Command: " ++ command, "Return code: " ++ toString returncode,
               "Timestamp: " ++ ctimeStr]
  let withOut := if stdout = "" then base else base ++ ["STDOUT:\n" ++ stdout]
  let withErr := if stderr = "" then withOut else withOut ++ ["STDERR:\n" ++ stderr]
  String.intercalate "\n" withErr

/-- `TTYManager.execute_command(session_id, command)`. Fails with a
not-found payload when the id is absent; on a completed process it bumps
`commands_executed`, stamps `last_activity`, replaces the buffer with the
formatted output and recomputes `bytes_written` / `lines_written`; on
`TimeoutExpired` or any other exception it returns a failure payload before
any mutation (the stats updates on source lines 83-101 all happen after
`subprocess.run` returns normally). -/
def execute_command (m : Store) (session_id command : String) (run : RunResult)
    (now : Int) (ctimeStr : String) : ExecResult × Store :=
  match lookupStore m session_id with
  | none =>
      ({ success := false, error := some ("Session " ++ session_id ++ " not found") }, m)
  | some session =>
      match run with
      | RunResult.timedOut =>
          ({ success := false, error := some "Command timeout" }, m)
      | RunResult.execError msg =>
          ({ success := false, error := some msg }, m)
      | RunResult.completed returncode out err =>
          let stats1 := { session.stats with
            commands_executed := session.stats.commands_executed + 1,
            last_activity := now }
          let output := format_output command returncode ctimeStr out err
          let stats2 := { stats1 with
            bytes_written := py_len output,
            lines_written := count_newlines output + 1 }
          let session2 := { session with buffer := output, stats := stats2 }
          ({ success := true, session_id := some session_id, command := some command,
             output := some output, return_code := some returncode },
           updateStore m session_id session2)

/-- `TTYManager.get_session_stats(session_id)`. The not-found branch returns
only `{"error": ...}` (no `"success"` key); the found branch computes
`uptime_seconds = time.time() - created_at` and
`last_activity_seconds = time.time() - last_activity` at read time. -/
def get_session_stats (m : Store) (session_id : String) (now : Int) : StatsResult :=
  match lookupStore m session_id with
  | none => { error := some ("Session " ++ session_id ++ " not found") }
  | some session =>
      { session_id := some session_id,
        description := some session.description,
        status := some session.status.value,
        stats := some
          { lines_written := session.stats.lines_written,
            bytes_written := session.stats.bytes_written,
            commands_executed := session.stats.commands_executed,
            uptime_seconds := now - session.stats.created_at,
            last_activity_seconds := now - session.stats.last_activity } }

/-- `TTYManager.get_session(session_id)`: delegates to `get_session_stats`. -/
def get_session (m : Store) (session_id : String) (now : Int) : StatsResult :=
  get_session_stats m session_id now

/-- `TTYManager.terminate_session(session_id)`. Sets the record's status to
TERMINATED and deletes it from the store in the same step (source lines
150-151); an absent id yields a `{success: False, error}` payload. -/
def terminate_session (m : Store) (session_id : String) : TerminateResult × Store :=
  match lookupStore m session_id with
  | none =>
      ({ success := false, error := some ("Session " ++ session_id ++ " not found") }, m)
  | some session =>
      let m1 := updateStore m session_id { session with status := SessionStatus.terminated }
      let m2 := removeStore m1 session_id
      ({ success := true, session_id := some session_id }, m2)

/-- Dict assignment `results[session_id] = ...` inside `batch_terminate`. -/
def dict_set (res : List (String × TerminateResult)) (sid : String) (r : TerminateResult) :
    List (String × TerminateResult) :=
  if res.any (fun p => p.1 == sid) then
    res.map (fun p => if p.1 = sid then (sid, r) else p)
  else
    res ++ [(sid, r)]

/-- One iteration of the `for session_id in session_ids` loop in
`batch_terminate`: terminate against the current store, record the outcome. -/
def batch_step (acc : List (String × TerminateResult) × Store) (sid : String) :
    List (String × TerminateResult) × Store :=
  let r := terminate_session acc.2 sid
  (dict_set acc.1 sid r.1, r.2)

/-- `TTYManager.batch_terminate(session_ids)`. When `session_ids is None` it
snapshots `list(self.sessions.keys())` first; each id is terminated
independently; the top-level dict always carries `success: True`, a
`terminated_count` of the per-id outcomes with `success` truthy, and the
per-id `details` mapping. -/
def batch_terminate (m : Store) (session_ids : Option (List String)) :
    BatchResult × Store :=
  let ids := match session_ids with
    | none => m.map Prod.fst
    | some l => l
  let folded := ids.foldl batch_step ([], m)
  ({ success := true,
     terminated_count := (folded.1.filter (fun p => p.2.success)).length,
     details := folded.1 },
   folded.2)

/-- Models source line 214, `f"Browser-{uuid.uuid4()[:8]}"`: `uuid.uuid4()`
returns a `uuid.UUID` object, and `UUID` defines no `__getitem__`, so slicing
it raises `TypeError: UUID object is not subscriptable` (Python quotes the
type name in the message; contrast line 48, which correctly slices
`str(uuid.uuid4())`). The raised exception is the error branch; the slice
never produces a value. -/
def uuid_slice_eight : Except String String :=
  Except.error "TypeError: UUID object is not subscriptable"

/-- `TTYManager.create_browser_session(url)`. The body first evaluates the
f-string of line 214, whose `uuid.uuid4()[:8]` raises `TypeError`; the
enclosing `except Exception` clause turns that into a
`{success: False, error: f"Failed to create browser session: {e}"}` payload,
so the create / fetch code below the f-string is unreachable. It is still
modelled: create a session described `"Browser-" + suffix`, then, when `url`
is truthy, run `lynx {url}` through `execute_command`. -/
def create_browser_session (m : Store) (url : Option String) (fresh_id : String)
    (now : Int) (run : RunResult) (ctimeStr : String) : BrowserResult × Store :=
  match uuid_slice_eight with
  | Except.error e =>
      ({ success := false, error := some ("Failed to create browser session: " ++ e) }, m)
  | Except.ok suffix =>
      let created := create_session m fresh_id ("Browser-" ++ suffix) now
      if created.1.success then
        let sid := created.1.session_id.getD ""
        let urlTruthy := match url with
          | some u => if u = "" then none else some u
          | none => none
        let m2 := match urlTruthy with
          | some u => (execute_command created.2 sid ("lynx " ++ u) run now ctimeStr).2
          | none => created.2
        ({ success := true, session_id := some sid, type := some "browser", url := url,
           message := some (match urlTruthy with
             | some u => "Browser session created for " ++ u
             | none => "Browser session created") }, m2)
      else
        ({ success := created.1.success, session_id := created.1.session_id,
           message := created.1.message, error := created.1.error }, created.2)

/-! ### Store lemmas -/

theorem lookupStore_updateStore_self (m : Store) (sid : String) (s : TTYSession)
    (h : lookupStore m sid ≠ none) : lookupStore (updateStore m sid s) sid = some s := by
  induction m with
  | nil => simp [lookupStore] at h
  | cons p rest ih =>
      by_cases hp : p.1 = sid
      · simp [lookupStore, updateStore, hp]
      · simp [lookupStore, updateStore, hp] at h ⊢
        exact ih h

theorem lookupStore_append_right (m : Store) (sid : String) (rest : Store)
    (h : lookupStore m sid = none) :
    lookupStore (m ++ rest) sid = lookupStore rest sid := by
  induction m with
  | nil => simp
  | cons p tl ih =>
      by_cases hp : p.1 = sid
      · simp [lookupStore, hp] at h
      · simp [lookupStore, hp] at h ⊢
        exact ih h

theorem lookupStore_insertStore_self (m : Store) (sid : String) (s : TTYSession) :
    lookupStore (insertStore m sid s) sid = some s := by
  unfold insertStore
  by_cases h : lookupStore m sid = none
  · rw [if_pos h, lookupStore_append_right m sid _ h]
    simp [lookupStore]
  · rw [if_neg h]
    exact lookupStore_updateStore_self m sid s h

theorem lookupStore_removeStore_self (m : Store) (sid : String) :
    lookupStore (removeStore m sid) sid = none := by
  induction m with
  | nil => simp [removeStore, lookupStore]
  | cons p rest ih =>
      by_cases hp : p.1 = sid
      · simpa [removeStore, hp] using ih
      · simpa [removeStore, lookupStore, hp] using ih

theorem lookupStore_removeStore_ne (m : Store) (a b : String) (h : b ≠ a) :
    lookupStore (removeStore m a) b = lookupStore m b := by
  induction m with
  | nil => simp [removeStore]
  | cons p rest ih =>
      by_cases hp : p.1 = a
      · have hb : p.1 ≠ b := by rw [hp]; exact fun hx => h hx.symm
        simp [removeStore, lookupStore, hp, hb, ih, Ne.symm h]
      · by_cases hb : p.1 = b
        · simp [removeStore, lookupStore, hp, hb, h]
        · simp [removeStore, lookupStore, hp, hb, ih]

theorem removeStore_updateStore (m : Store) (sid : String) (s : TTYSession) :
    removeStore (updateStore m sid s) sid = removeStore m sid := by
  induction m with
  | nil => simp [updateStore, removeStore]
  | cons p rest ih =>
      by_cases hp : p.1 = sid
      · simpa [updateStore, removeStore, hp] using ih
      · simpa [updateStore, removeStore, hp] using ih

theorem mem_removeStore (m : Store) (sid : String) (p : String × TTYSession) :
    p ∈ removeStore m sid ↔ p ∈ m ∧ p.1 ≠ sid := by
  induction m with
  | nil => simp [removeStore]
  | cons q rest ih =>
      by_cases hq : q.1 = sid
      · rw [removeStore]
        simp only [if_pos hq, ih, List.mem_cons]
        constructor
        · rintro ⟨hm, hne⟩; exact ⟨Or.inr hm, hne⟩
        · rintro ⟨hm | hm, hne⟩
          · subst hm; exact absurd hq hne
          · exact ⟨hm, hne⟩
      · rw [removeStore]
        simp only [if_neg hq, List.mem_cons, ih]
        constructor
        · rintro (hm | ⟨hm, hne⟩)
          · subst hm; exact ⟨Or.inl rfl, hq⟩
          · exact ⟨Or.inr hm, hne⟩
        · rintro ⟨hm | hm, hne⟩
          · exact Or.inl hm
          · exact Or.inr ⟨hm, hne⟩

theorem lookupStore_mem (m : Store) (sid : String) (s : TTYSession)
    (h : lookupStore m sid = some s) : (sid, s) ∈ m := by
  induction m with
  | nil => simp [lookupStore] at h
  | cons p rest ih =>
      obtain ⟨a, b⟩ := p
      by_cases hp : a = sid
      · simp only [lookupStore, hp, if_pos rfl] at h
        subst hp
        have hb : b = s := Option.some.inj h
        subst hb
        exact List.mem_cons_self _ _
      · simp only [lookupStore] at h
        rw [if_neg hp] at h
        exact List.mem_cons_of_mem _ (ih h)

theorem lookupStore_ne_none_of_key_mem (m : Store) (sid : String)
    (h : sid ∈ m.map Prod.fst) : lookupStore m sid ≠ none := by
  induction m with
  | nil => simp at h
  | cons p rest ih =>
      by_cases hp : p.1 = sid
      · simp [lookupStore, hp]
      · simp [lookupStore, hp]
        rcases List.mem_map.mp h with ⟨q, hq, hkey⟩
        rcases List.mem_cons.mp hq with hq1 | hq2
        · exact absurd (hq1 ▸ hkey) hp
        · exact ih (hkey ▸ List.mem_map_of_mem Prod.fst hq2)

/-! ### Termination lemmas -/

/-- The success payload `{"success": True, "session_id": sid}`. -/
def terminate_ok (sid : String) : TerminateResult :=
  { success := true, session_id := some sid }

theorem terminate_session_found (m : Store) (sid : String) (s : TTYSession)
    (h : lookupStore m sid = some s) :
    terminate_session m sid = (terminate_ok sid, removeStore m sid) := by
  unfold terminate_session
  rw [h]
  simp [terminate_ok, removeStore_updateStore]

theorem terminate_session_notFound (m : Store) (sid : String)
    (h : lookupStore m sid = none) :
    terminate_session m sid
      = ({ success := false, error := some ("Session " ++ sid ++ " not found") }, m) := by
  unfold terminate_session
  rw [h]

/-! ### Batch-termination lemmas -/

/-- The store after removing every key in `ids`, in order. -/
def remove_all (m : Store) (ids : List String) : Store := ids.foldl removeStore m

theorem mem_remove_all (ids : List String) :
    ∀ (m : Store) (p : String × TTYSession),
      p ∈ remove_all m ids ↔ p ∈ m ∧ p.1 ∉ ids := by
  induction ids with
  | nil => intro m p; simp [remove_all]
  | cons a rest ih =>
      intro m p
      have step : remove_all m (a :: rest) = remove_all (removeStore m a) rest := rfl
      rw [step, ih, mem_removeStore]
      constructor
      · rintro ⟨⟨hm, hne⟩, hnr⟩
        exact ⟨hm, by simp [hne, hnr]⟩
      · rintro ⟨hm, hni⟩
        simp only [List.mem_cons, not_or] at hni
        exact ⟨⟨hm, hni.1⟩, hni.2⟩

theorem remove_all_keys_eq_nil (m : Store) (ids : List String)
    (h : ∀ p ∈ m, p.1 ∈ ids) : remove_all m ids = [] := by
  rw [List.eq_nil_iff_forall_not_mem]
  intro p hp
  rw [mem_remove_all] at hp
  exact hp.2 (h p hp.1)

theorem dict_set_fresh (res : List (String × TerminateResult)) (sid : String)
    (r : TerminateResult) (h : res.any (fun p => p.1 == sid) = false) :
    dict_set res sid r = res ++ [(sid, r)] := by
  unfold dict_set
  rw [h]
  simp

theorem batch_fold_ok (ids : List String) :
    ∀ (m : Store) (acc : List (String × TerminateResult)),
      ids.Nodup → (∀ id ∈ ids, lookupStore m id ≠ none) →
      (∀ id ∈ ids, acc.any (fun p => p.1 == id) = false) →
      ids.foldl batch_step (acc, m)
        = (acc ++ ids.map (fun id => (id, terminate_ok id)), remove_all m ids) := by
  induction ids with
  | nil => intro m acc _ _ _; simp [remove_all]
  | cons a rest ih =>
      intro m acc hnd hpres hacc
      obtain ⟨s, hs⟩ := Option.ne_none_iff_exists'.mp (hpres a (List.mem_cons_self a rest))
      have hstep : batch_step (acc, m) a = (acc ++ [(a, terminate_ok a)], removeStore m a) := by
        unfold batch_step
        rw [terminate_session_found m a s hs]
        show (dict_set acc a (terminate_ok a), removeStore m a) = _
        rw [dict_set_fresh acc a (terminate_ok a) (hacc a (List.mem_cons_self a rest))]
      have hna : a ∉ rest := (List.nodup_cons.mp hnd).1
      have hrest : rest.Nodup := (List.nodup_cons.mp hnd).2
      have hpres' : ∀ id ∈ rest, lookupStore (removeStore m a) id ≠ none := by
        intro id hid
        have hne : id ≠ a := fun hEq => hna (hEq ▸ hid)
        rw [lookupStore_removeStore_ne m a id hne]
        exact hpres id (List.mem_cons_of_mem a hid)
      have hacc' : ∀ id ∈ rest,
          (acc ++ [(a, terminate_ok a)]).any (fun p => p.1 == id) = false := by
        intro id hid
        have hne : a ≠ id := fun hEq => hna (hEq ▸ hid)
        rw [List.any_append]
        simp only [List.any_cons, List.any_nil]
        rw [hacc id (List.mem_cons_of_mem a hid)]
        simp [hne]
      calc (a :: rest).foldl batch_step (acc, m)
          = rest.foldl batch_step (batch_step (acc, m) a) := rfl
        _ = rest.foldl batch_step (acc ++ [(a, terminate_ok a)], removeStore m a) := by
              rw [hstep]
        _ = (acc ++ [(a, terminate_ok a)] ++ rest.map (fun id => (id, terminate_ok id)),
              remove_all (removeStore m a) rest) := ih (removeStore m a) _ hrest hpres' hacc'
        _ = (acc ++ (a :: rest).map (fun id => (id, terminate_ok id)),
              remove_all m (a :: rest)) := by
              rw [List.append_assoc]
              rfl

theorem count_all_ok (ids : List String) :
    ((ids.map fun id => (id, terminate_ok id)).filter fun p => p.2.success).length
      = ids.length := by
  induction ids with
  | nil => rfl
  | cons a rest ih =>
      simp only [terminate_ok] at ih
      simp [terminate_ok, List.filter, ih]

/-! ### The active-status invariant -/

/-- Every record currently in the store has status ACTIVE. -/
def all_active (m : Store) : Prop :=
  ∀ p ∈ m, p.2.status = SessionStatus.active

theorem all_active_insertStore (m : Store) (sid : String) (s : TTYSession)
    (hm : all_active m) (hs : s.status = SessionStatus.active) :
    all_active (insertStore m sid s) := by
  unfold insertStore
  by_cases h : lookupStore m sid = none
  · rw [if_pos h]
    intro p hp
    rcases List.mem_append.mp hp with hp1 | hp2
    · exact hm p hp1
    · simp only [List.mem_singleton] at hp2
      rw [hp2]
      exact hs
  · rw [if_neg h]
    intro p hp
    rcases List.mem_map.mp hp with ⟨q, hq, hpq⟩
    by_cases hk : q.1 = sid
    · rw [if_pos hk] at hpq
      rw [← hpq]
      exact hs
    · rw [if_neg hk] at hpq
      rw [← hpq]
      exact hm q hq

theorem all_active_updateStore (m : Store) (sid : String) (s : TTYSession)
    (hm : all_active m) (hs : s.status = SessionStatus.active) :
    all_active (updateStore m sid s) := by
  intro p hp
  rcases List.mem_map.mp hp with ⟨q, hq, hpq⟩
  by_cases hk : q.1 = sid
  · rw [if_pos hk] at hpq
    rw [← hpq]
    exact hs
  · rw [if_neg hk] at hpq
    rw [← hpq]
    exact hm q hq

theorem all_active_removeStore (m : Store) (sid : String) (hm : all_active m) :
    all_active (removeStore m sid) := by
  intro p hp
  exact hm p ((mem_removeStore m sid p).mp hp).1

theorem all_active_create (m : Store) (fresh_id description : String) (now : Int)
    (hm : all_active m) : all_active (create_session m fresh_id description now).2 := by
  unfold create_session
  exact all_active_insertStore m fresh_id _ hm rfl

theorem all_active_execute (m : Store) (sid cmd : String) (run : RunResult)
    (now : Int) (ct : String) (hm : all_active m) :
    all_active (execute_command m sid cmd run now ct).2 := by
  unfold execute_command
  cases hl : lookupStore m sid with
  | none => exact hm
  | some session =>
      cases run with
      | timedOut => exact hm
      | execError msg => exact hm
      | completed rc out err =>
          apply all_active_updateStore m sid _ hm

          exact hm (sid, session) (lookupStore_mem m sid session hl)

theorem all_active_terminate (m : Store) (sid : String) (hm : all_active m) :
    all_active (terminate_session m sid).2 := by
  unfold terminate_session
  cases hl : lookupStore m sid with
  | none => exact hm
  | some session =>
      show all_active (removeStore (updateStore m sid _) sid)
      rw [removeStore_updateStore]
      exact all_active_removeStore m sid hm

theorem all_active_batch_fold (ids : List String) :
    ∀ (m : Store) (acc : List (String × TerminateResult)), all_active m →
      all_active (ids.foldl batch_step (acc, m)).2 := by
  induction ids with
  | nil => intro m acc hm; exact hm
  | cons a rest ih =>
      intro m acc hm
      have hstep : (batch_step (acc, m) a).2 = (terminate_session m a).2 := rfl
      have hm' : all_active (batch_step (acc, m) a).2 := by
        rw [hstep]
        exact all_active_terminate m a hm
      exact ih (batch_step (acc, m) a).2 (batch_step (acc, m) a).1 hm'

theorem all_active_batch (m : Store) (ids : Option (List String)) (hm : all_active m) :
    all_active (batch_terminate m ids).2 := by
  unfold batch_terminate
  cases ids with
  | none => exact all_active_batch_fold (m.map Prod.fst) m [] hm
  | some l => exact all_active_batch_fold l m [] hm

theorem all_active_browser (m : Store) (url : Option String) (fresh_id : String)
    (now : Int) (run : RunResult) (ct : String) (hm : all_active m) :
    all_active (create_browser_session m url fresh_id now run ct).2 := by
  unfold create_browser_session uuid_slice_eight
  exact hm

/-- The session record produced by a successful `execute_command`: buffer
replaced by the formatted output, counters recomputed from it,
`commands_executed` bumped, `last_activity` stamped. -/
def exec_update (s : TTYSession) (cmd : String) (rc : Int) (out err : String)
    (now : Int) (ct : String) : TTYSession :=
  let output := format_output cmd rc ct out err
  { s with buffer := output,
           stats := { s.stats with
             commands_executed := s.stats.commands_executed + 1,
             last_activity := now,
             bytes_written := py_len output,
             lines_written := count_newlines output + 1 } }

theorem execute_command_found_completed (m : Store) (sid cmd : String) (rc : Int)
    (out err : String) (now : Int) (ct : String) (s : TTYSession)
    (hs : lookupStore m sid = some s) :
    execute_command m sid cmd (RunResult.completed rc out err) now ct
      = ({ success := true, session_id := some sid, command := some cmd,
           output := some (format_output cmd rc ct out err), return_code := some rc },
         updateStore m sid (exec_update s cmd rc out err now ct)) := by
  unfold execute_command
  rw [hs]
  rfl

theorem any_dict_set_self (res : List (String × TerminateResult)) (sid : String)
    (r : TerminateResult) :
    ((dict_set res sid r).any fun p => p.1 == sid) = true := by
  unfold dict_set
  by_cases h : (res.any fun p => p.1 == sid) = true
  · rw [if_pos h]
    rcases List.any_eq_true.mp h with ⟨q, hq, hqs⟩
    apply List.any_eq_true.mpr
    refine ⟨(sid, r), ?_, by simp⟩
    apply List.mem_map.mpr
    refine ⟨q, hq, ?_⟩
    rw [if_pos (by simpa using hqs)]
  · rw [if_neg h]
    apply List.any_eq_true.mpr
    exact ⟨(sid, r), List.mem_append_right res (List.mem_singleton.mpr rfl), by simp⟩

theorem any_dict_set_other (res : List (String × TerminateResult)) (a b : String)
    (r : TerminateResult) (h : (res.any fun p => p.1 == b) = true) :
    ((dict_set res a r).any fun p => p.1 == b) = true := by
  unfold dict_set
  by_cases ha : (res.any fun p => p.1 == a) = true
  · rw [if_pos ha]
    rcases List.any_eq_true.mp h with ⟨q, hq, hqb⟩
    apply List.any_eq_true.mpr
    by_cases hk : q.1 = a
    · refine ⟨(a, r), List.mem_map.mpr ⟨q, hq, by rw [if_pos hk]⟩, ?_⟩
      have : q.1 = b := by simpa using hqb
      simp [← hk, this]
    · exact ⟨q, List.mem_map.mpr ⟨q, hq, by rw [if_neg hk]⟩, hqb⟩
  · rw [if_neg ha]
    apply List.any_eq_true.mpr
    rcases List.any_eq_true.mp h with ⟨q, hq, hqb⟩
    exact ⟨q, List.mem_append_left _ hq, hqb⟩

theorem batch_fold_mem (ids : List String) :
    ∀ (acc : List (String × TerminateResult) × Store) (id : String),
      id ∈ ids ∨ (acc.1.any fun p => p.1 == id) = true →
      (((ids.foldl batch_step acc).1).any fun p => p.1 == id) = true := by
  induction ids with
  | nil =>
      intro acc id h
      rcases h with h | h
      · simp at h
      · exact h
  | cons a rest ih =>
      intro acc id h
      have hstep : (batch_step acc a).1 = dict_set acc.1 a (terminate_session acc.2 a).1 := rfl
      have hnext : id ∈ rest ∨ ((batch_step acc a).1.any fun p => p.1 == id) = true := by
        rcases h with h | h
        · rcases List.mem_cons.mp h with h1 | h2
          · right
            rw [hstep, h1]
            exact any_dict_set_self acc.1 a _
          · exact Or.inl h2
        · right
          rw [hstep]
          exact any_dict_set_other acc.1 a id _ h
      exact ih (batch_step acc a) id hnext

/-- The states of the session store reachable by sequences of store-mutating
`TTYManager` operations, starting from the empty registry built in
`TTYManager.__init__`. The read-only operations (`get_session_stats`,
`get_session`, `list_sessions`, `get_summary_stats`, `read_all_sessions`,
`health_check`) never touch the store and contribute no steps. -/
inductive Reachable : Store → Prop where
  | init : Reachable []
  | create (m : Store) (fresh_id description : String) (now : Int) :
      Reachable m → Reachable (create_session m fresh_id description now).2
  | exec (m : Store) (sid cmd : String) (run : RunResult) (now : Int) (ct : String) :
      Reachable m → Reachable (execute_command m sid cmd run now ct).2
  | terminate (m : Store) (sid : String) :
      Reachable m → Reachable (terminate_session m sid).2
  | batch (m : Store) (ids : Option (List String)) :
      Reachable m → Reachable (batch_terminate m ids).2
  | browser (m : Store) (url : Option String) (fresh_id : String) (now : Int)
      (run : RunResult) (ct : String) :
      Reachable m → Reachable (create_browser_session m url fresh_id now run ct).2

/-! ### Concrete fixtures for witnesses -/

/-- A concrete freshly created session record. -/
def demo_session : TTYSession :=
  { session_id := "s1",
    stats := { created_at := 100 },
    description := "Session-s1" }

/-- A one-session store. -/
def demo_store : Store := [("s1", demo_session)]

/-- A second concrete session record. -/
def demo_session2 : TTYSession :=
  { session_id := "s2",
    stats := { created_at := 150 },
    description := "work" }

/-- A two-session store with distinct keys. -/
def demo_store2 : Store := [("s1", demo_session), ("s2", demo_session2)]

/-! ### Claim theorems -/

/-- C1: the claim states that every `create_browser_session` call reports
`success: true` together with the id of a newly created session present in
the store. The code instead evaluates `uuid.uuid4()[:8]` on source line 214,
which raises `TypeError` (a `uuid.UUID` object is not subscriptable; line 48
correctly slices `str(uuid.uuid4())`), so every call — with or without a
url — returns a `success: False` error payload and leaves the store
unchanged: no session is ever created. -/
theorem c1_browser_session_always_fails (m : Store) (url : Option String)
    (fresh_id : String) (now : Int) (run : RunResult) (ct : String) :
    (create_browser_session m url fresh_id now run ct).1.success = false ∧
    (create_browser_session m url fresh_id now run ct).1.error
      = some ("Failed to create browser session: "
          ++ "TypeError: UUID object is not subscriptable") ∧
    (create_browser_session m url fresh_id now run ct).2 = m :=
  ⟨rfl, rfl, rfl⟩

/-- C2: an `execute_command` that ends in a timeout or an execution error
returns a failure payload and leaves the store — in particular the session's
record with its `commands_executed`, `last_activity`, buffer, `bytes_written`
and `lines_written` — exactly as it was before the call. -/
theorem c2_failed_execution_invisible (m : Store) (sid cmd : String)
    (run : RunResult) (now : Int) (ct : String) (s : TTYSession)
    (hs : lookupStore m sid = some s)
    (hr : run = RunResult.timedOut ∨ ∃ e, run = RunResult.execError e) :
    (execute_command m sid cmd run now ct).1.success = false ∧
    (execute_command m sid cmd run now ct).2 = m ∧
    lookupStore (execute_command m sid cmd run now ct).2 sid = some s := by
  rcases hr with h | ⟨e, h⟩ <;> subst h <;>
    exact ⟨by simp [execute_command, hs], by simp [execute_command, hs],
           by simp [execute_command, hs]⟩

theorem c2_witness :
    (execute_command demo_store "s1" "sleep 60" RunResult.timedOut 200 "ts").1.success = false ∧
    (execute_command demo_store "s1" "sleep 60" RunResult.timedOut 200 "ts").2 = demo_store ∧
    lookupStore (execute_command demo_store "s1" "sleep 60" RunResult.timedOut 200 "ts").2 "s1"
      = some demo_session :=
  c2_failed_execution_invisible demo_store "s1" "sleep 60" RunResult.timedOut 200 "ts"
    demo_session (by decide) (Or.inl rfl)

/-- C3: immediately after any successful `execute_command` — including the
first on a session — the stored record satisfies
`bytes_written = len(lastOutput)` and
`lines_written = lastOutput.count('\n') + 1`: the counters are recomputed
from, and therefore match, the freshly stored output buffer. -/
theorem c3_counters_match_buffer (m : Store) (sid cmd : String) (rc : Int)
    (out err : String) (now : Int) (ct : String) (s : TTYSession)
    (hs : lookupStore m sid = some s) :
    ∃ s2,
      lookupStore (execute_command m sid cmd (RunResult.completed rc out err) now ct).2 sid
        = some s2 ∧
      s2.stats.bytes_written = py_len s2.buffer ∧
      s2.stats.lines_written = line_count s2.buffer := by
  have hne : lookupStore m sid ≠ none := by rw [hs]; exact Option.some_ne_none s
  rw [execute_command_found_completed m sid cmd rc out err now ct s hs]
  exact ⟨exec_update s cmd rc out err now ct,
    lookupStore_updateStore_self m sid _ hne, rfl, rfl⟩

theorem c3_witness :
    ∃ s2,
      lookupStore (execute_command demo_store "s1" "echo hi"
        (RunResult.completed 0 "hi\n" "") 200 "ts").2 "s1" = some s2 ∧
      s2.stats.bytes_written = py_len s2.buffer ∧
      s2.stats.lines_written = line_count s2.buffer :=
  c3_counters_match_buffer demo_store "s1" "echo hi" 0 "hi\n" "" 200 "ts"
    demo_session (by decide)

/-- C4 counterexample: `get_session_stats` on the missing id `"zzz"` returns
the dict `{"error": "Session zzz not found"}` with no `"success"` key at all
(source line 118), so its payload does not contain `success: false` as the
claim requires of every id-taking operation. -/
theorem c4_counterexample :
    (get_session_stats [] "zzz" 0).success = none ∧
    (get_session_stats [] "zzz" 0).success ≠ some false ∧
    (get_session_stats [] "zzz" 0).error = some "Session zzz not found" := by
  decide

/-- C4 (amended): for an id absent from the store, each id-taking operation
returns a structured payload whose error message is `"Session <id> not
found"` and leaves the store unchanged; `execute_command` and
`terminate_session` additionally carry `success: false`, while
`get_session_stats` — and `get_session`, which delegates to it — omit the
`success` key entirely. -/
theorem c4_not_found_payloads (m : Store) (sid cmd : String) (run : RunResult)
    (now : Int) (ct : String) (h : lookupStore m sid = none) :
    ((execute_command m sid cmd run now ct).1.success = false ∧
      (execute_command m sid cmd run now ct).1.error
        = some ("Session " ++ sid ++ " not found") ∧
      (execute_command m sid cmd run now ct).2 = m) ∧
    ((terminate_session m sid).1.success = false ∧
      (terminate_session m sid).1.error = some ("Session " ++ sid ++ " not found") ∧
      (terminate_session m sid).2 = m) ∧
    ((get_session_stats m sid now).success = none ∧
      (get_session_stats m sid now).error = some ("Session " ++ sid ++ " not found")) ∧
    get_session m sid now = get_session_stats m sid now := by
  refine ⟨⟨?_, ?_, ?_⟩, ⟨?_, ?_, ?_⟩, ⟨?_, ?_⟩, rfl⟩ <;>
    simp [execute_command, terminate_session, get_session_stats, h]

theorem c4_witness :
    ((execute_command [] "zzz" "ls" RunResult.timedOut 0 "ts").1.success = false ∧
      (execute_command [] "zzz" "ls" RunResult.timedOut 0 "ts").1.error
        = some ("Session " ++ "zzz" ++ " not found") ∧
      (execute_command [] "zzz" "ls" RunResult.timedOut 0 "ts").2 = []) ∧
    ((terminate_session [] "zzz").1.success = false ∧
      (terminate_session [] "zzz").1.error = some ("Session " ++ "zzz" ++ " not found") ∧
      (terminate_session [] "zzz").2 = []) ∧
    ((get_session_stats [] "zzz" 0).success = none ∧
      (get_session_stats [] "zzz" 0).error = some ("Session " ++ "zzz" ++ " not found")) ∧
    get_session [] "zzz" 0 = get_session_stats [] "zzz" 0 :=
  c4_not_found_payloads [] "zzz" "ls" RunResult.timedOut 0 "ts" rfl

/-- C5: terminating a present session succeeds (returning its id) and removes
the record from the store; afterwards `get_session_stats` on that id reports
the not-found error with no stats, and a second `terminate_session` on the
same id yields the not-found failure payload, not success. -/
theorem c5_terminate_removes_record (m : Store) (sid : String)
    (s : TTYSession) (now : Int) (hs : lookupStore m sid = some s) :
    (terminate_session m sid).1.success = true ∧
    (terminate_session m sid).1.session_id = some sid ∧
    lookupStore (terminate_session m sid).2 sid = none ∧
    (get_session_stats (terminate_session m sid).2 sid now).error
      = some ("Session " ++ sid ++ " not found") ∧
    (get_session_stats (terminate_session m sid).2 sid now).stats = none ∧
    (terminate_session (terminate_session m sid).2 sid).1.success = false ∧
    (terminate_session (terminate_session m sid).2 sid).1.error
      = some ("Session " ++ sid ++ " not found") := by
  rw [terminate_session_found m sid s hs]
  have hnone : lookupStore (removeStore m sid) sid = none :=
    lookupStore_removeStore_self m sid
  refine ⟨rfl, rfl, hnone, ?_, ?_, ?_, ?_⟩ <;>
    simp [get_session_stats, terminate_session, hnone]

theorem c5_witness :
    (terminate_session demo_store "s1").1.success = true ∧
    (terminate_session demo_store "s1").1.session_id = some "s1" ∧
    lookupStore (terminate_session demo_store "s1").2 "s1" = none ∧
    (get_session_stats (terminate_session demo_store "s1").2 "s1" 200).error
      = some ("Session " ++ "s1" ++ " not found") ∧
    (get_session_stats (terminate_session demo_store "s1").2 "s1" 200).stats = none ∧
    (terminate_session (terminate_session demo_store "s1").2 "s1").1.success = false ∧
    (terminate_session (terminate_session demo_store "s1").2 "s1").1.error
      = some ("Session " ++ "s1" ++ " not found") :=
  c5_terminate_removes_record demo_store "s1" demo_session 200 (by decide)

/-- C6: `batch_terminate` with no id list snapshots the keys of the store at
call start and terminates each of them: the call reports `success: True`,
`terminated_count` equals the number of sessions active at call start, and
the store is empty afterwards. The hypothesis that the stored keys are
pairwise distinct is an invariant of the Python dict the store embeds. -/
theorem c6_batch_terminates_all (m : Store) (hnd : (m.map Prod.fst).Nodup) :
    (batch_terminate m none).1.success = true ∧
    (batch_terminate m none).1.terminated_count = m.length ∧
    (batch_terminate m none).2 = [] := by
  have hfold := batch_fold_ok (m.map Prod.fst) m []
    hnd (fun id hid => lookupStore_ne_none_of_key_mem m id hid)
    (fun id _ => rfl)
  refine ⟨rfl, ?_, ?_⟩
  · have h1 : ((m.map Prod.fst).foldl batch_step ([], m)).1
        = (m.map Prod.fst).map (fun id => (id, terminate_ok id)) := by
      rw [hfold]
      simp
    show ((((m.map Prod.fst).foldl batch_step ([], m)).1).filter
      (fun p => p.2.success)).length = m.length
    rw [h1, count_all_ok, List.length_map]
  · show ((m.map Prod.fst).foldl batch_step ([], m)).2 = []
    rw [hfold]
    exact remove_all_keys_eq_nil m _ (fun p hp => List.mem_map_of_mem Prod.fst hp)

theorem c6_witness :
    (batch_terminate demo_store2 none).1.success = true ∧
    (batch_terminate demo_store2 none).1.terminated_count = demo_store2.length ∧
    (batch_terminate demo_store2 none).2 = [] :=
  c6_batch_terminates_all demo_store2 (by decide)

/-- C7: the claim states that a freshly created session reports
`commands_executed == 0` (which holds) and an unset `lastActivity`,
distinguishable from a recent timestamp and in particular not an
elapsed-seconds value computed from zero. The code stores `last_activity = 0`
and `get_session_stats` unconditionally computes
`last_activity_seconds = time.time() - last_activity` (source line 132), so a
never-used session is reported with `last_activity_seconds = now - 0` — the
full current epoch time presented as an elapsed-seconds value, exactly the
shape the claim rules out. -/
theorem c7_fresh_session_reports_elapsed_from_zero (m : Store) (sid desc : String)
    (t0 t : Int) :
    get_session_stats (create_session m sid desc t0).2 sid t
      = { success := none,
          error := none,
          session_id := some sid,
          description := some (if desc = "" then "Session-" ++ sid else desc),
          status := some "active",
          stats := some { lines_written := 0, bytes_written := 0, commands_executed := 0,
                          uptime_seconds := t - t0, last_activity_seconds := t - 0 } } := by
  unfold get_session_stats create_session
  rw [lookupStore_insertStore_self]
  rfl

/-- C8 counterexample: `create_session` with an empty description on a fresh
id `"abc123"` stores the defaulted description `"Session-abc123"` in the
record, but the returned payload echoes the original argument (source line
59): its `description` field is `""`, not the defaulted value the claim
requires. -/
theorem c8_counterexample :
    (create_session [] "abc123" "" 0).1.description = some "" ∧
    (create_session [] "abc123" "" 0).1.description ≠ some "Session-abc123" ∧
    (lookupStore (create_session [] "abc123" "" 0).2 "abc123").map TTYSession.description
      = some "Session-abc123" := by
  decide

/-- C8 (amended): `create_session` with an empty (or omitted, which Python
defaults to empty) description creates a record whose description is
`"Session-" + id`, and returns `success: true` with the fresh id — but the
payload's `description` field carries the original empty argument, not the
defaulted value. -/
theorem c8_default_description (m : Store) (sid : String) (now : Int) :
    (create_session m sid "" now).1.success = true ∧
    (create_session m sid "" now).1.session_id = some sid ∧
    (create_session m sid "" now).1.description = some "" ∧
    (lookupStore (create_session m sid "" now).2 sid).map TTYSession.description
      = some ("Session-" ++ sid) := by
  refine ⟨rfl, rfl, rfl, ?_⟩
  unfold create_session
  rw [lookupStore_insertStore_self]
  rfl

/-- C9: in every store reachable by any sequence of manager operations, every
stored record has status ACTIVE; `terminate_session` assigns TERMINATED only
in the same step that deletes the record (source lines 150-151), so no stored
record is ever observable with status TERMINATED. -/
theorem c9_reachable_stores_all_active (m : Store) (h : Reachable m) :
    all_active m := by
  induction h with
  | init => intro p hp; simp at hp
  | create m fid d now _ ih => exact all_active_create m fid d now ih
  | exec m sid cmd run now ct _ ih => exact all_active_execute m sid cmd run now ct ih
  | terminate m sid _ ih => exact all_active_terminate m sid ih
  | batch m ids _ ih => exact all_active_batch m ids ih
  | browser m url fid now run ct _ ih => exact all_active_browser m url fid now run ct ih

theorem c9_witness : all_active (create_session [] "s1" "" 0).2 :=
  c9_reachable_stores_all_active _ (Reachable.create [] "s1" "" 0 Reachable.init)

/-- C10: `batch_terminate` with an explicit id list — including an empty list
or a list of only nonexistent ids — always reports top-level `success: true`,
records an outcome for every requested id in the per-id `details` mapping,
and its `terminated_count` equals the number of detail entries whose own
termination outcome carries `success: true`. -/
theorem c10_batch_explicit_ids (m : Store) (ids : List String) :
    (batch_terminate m (some ids)).1.success = true ∧
    (ids.all fun id =>
      (batch_terminate m (some ids)).1.details.any fun p => p.1 == id) = true ∧
    (batch_terminate m (some ids)).1.terminated_count
      = ((batch_terminate m (some ids)).1.details.filter fun p => p.2.success).length := by
  refine ⟨rfl, ?_, rfl⟩
  rw [List.all_eq_true]
  intro id hid
  show ((ids.foldl batch_step ([], m)).1.any fun p => p.1 == id) = true
  exact batch_fold_mem ids ([], m) id (Or.inl hid)
